import Mathlib

/-!
Verification of the ORBITA manager-agent orchestration core.

Shallow embedding of `src/orbita/manager_agent.py` and
`src/orbita/manager_memory.py`.  External effects (the chat model, the
trustcall extractors, Python's process-salted `hash`) are modelled as
oracle parameters; fallible calls return `Except Unit`.
-/

namespace Orbita

/-! ## Python string primitives -/

/-- The apostrophe character, used when building Python-style literals. -/
def sq : Char := '\x27'

/-- The apostrophe as a one-character string. -/
def sqs : String := String.mk [sq]

/-- ASCII whitespace as recognised by Python's `str.strip` and `\s`. -/
def isPySpace (c : Char) : Bool :=
  c == ' ' || c == '\t' || c == '\n' || c == '\r' || c == '\x0b' || c == '\x0c'

/-- Python `str.strip()`: drop leading and trailing whitespace. -/
def pyStrip (s : String) : String :=
  String.mk (((s.toList.dropWhile isPySpace).reverse.dropWhile isPySpace).reverse)

/-- Python `str.lower()` on ASCII text. -/
def pyLower (s : String) : String :=
  String.mk (s.toList.map Char.toLower)

/-- Substring occurrence on character lists (Python's `needle in hay`). -/
def listContains (hay needle : List Char) : Bool :=
  needle.isPrefixOf hay ||
    match hay with
    | [] => false
    | _ :: t => listContains t needle

/-- Python `needle in hay` for strings. -/
def pyContains (hay needle : String) : Bool :=
  listContains hay.toList needle.toList

/-- Last `n` elements of a list: Python `xs[-n:]`. -/
def lastN (n : Nat) (l : List α) : List α :=
  l.drop (l.length - n)

/-! ### The name regex

`manager_agent.py` line 80 runs `re.search(r"'name':\s*'([^']+)'", memory_context)`.
We implement that regex search directly: try to match at each position, left
to right, returning the first capture group. -/

/-- The literal head of the pattern: `'name':`. -/
def namePatternHead : List Char := (sqs ++ "name" ++ sqs ++ ":").toList

/-- Try to match `'name':\s*'([^']+)'` at the start of `l`; return the capture. -/
def matchNameAt (l : List Char) : Option String :=
  if namePatternHead.isPrefixOf l then
    let r := (l.drop namePatternHead.length).dropWhile isPySpace
    match r with
    | c :: r2 =>
      if c == sq then
        let cap := r2.takeWhile (fun d => d != sq)
        let rest := r2.dropWhile (fun d => d != sq)
        match cap, rest with
        | _ :: _, e :: _ => if e == sq then some (String.mk cap) else none
        | _, _ => none
      else none
    | [] => none
  else none

/-- Model of `re.search`: first (leftmost) match of the name pattern, or `none`. -/
def nameSearch : List Char → Option String
  | [] => none
  | c :: t =>
    match matchNameAt (c :: t) with
    | some s => some s
    | none => nameSearch t

/-! ## Data model -/

/-- Message roles (`HumanMessage`, `AIMessage`, tool messages). -/
inductive Role
  | user
  | assistant
  | tool
deriving DecidableEq, Repr

/-- A transcript message.  `id` models the langchain message uuid, which the
`add_messages` reducer merges on. -/
structure Message where
  id : Nat
  role : Role
  content : String
deriving DecidableEq, Repr

/-- Pydantic model `Profile` (`manager_memory.py` lines 25-45).  `datetime`
values are opaque to the core logic and are modelled as strings. -/
structure Profile where
  name : Option String := none
  preferred_tone : String := "friendly"
  primary_interests : List String := []
  favorite_agents : List String := []
  usage_frequency : List (String × Int) := []
  last_seen : Option String := none
deriving DecidableEq, Repr

/-- Pydantic model `UserPreference` (lines 48-57). -/
structure UserPreference where
  preference_type : String
  preference_value : String
  importance : Int := 5
deriving DecidableEq, Repr

/-- Pydantic collection `UserPreferences` (lines 60-63). -/
structure UserPreferences where
  preferences : List UserPreference := []
deriving DecidableEq, Repr

/-- Pydantic model `SystemInstruction` (lines 66-74). -/
structure SystemInstruction where
  instruction_type : String
  instruction_text : String
  created_date : String := ""
  active : Bool := true
deriving DecidableEq, Repr

/-- Pydantic collection `SystemInstructions` (lines 77-80). -/
structure SystemInstructions where
  instructions : List SystemInstruction := []
deriving DecidableEq, Repr

/-- A value held by the memory store: a profile `model_dump()` dict, a
`UserPreference` object, or a `SystemInstruction` object. -/
inductive MemValue
  | profile (p : Profile)
  | pref (p : UserPreference)
  | instr (i : SystemInstruction)
deriving DecidableEq, Repr

/-- A store namespace: `("manager", category, user_id)`. -/
abbrev MemNamespace := String × String × String

/-- One store entry. -/
structure Entry where
  ns : MemNamespace
  key : String
  value : MemValue
deriving DecidableEq, Repr

/-- Model of `InMemoryStore`, kept in insertion order so that `search` returns entries
in the order they were first inserted. -/
abbrev Store := List Entry

/-- Does entry `e` live at `(ns, k)`? -/
def entMatch (ns : MemNamespace) (k : String) (e : Entry) : Bool :=
  e.ns == ns && e.key == k

/-- Model of `store.put(namespace, key, value)`: upsert.  The entry with the
same `(namespace, key)` — unique, since the store is a dict of dicts — is
overwritten in place; a new key is appended at the end. -/
def Store.put : Store → MemNamespace → String → MemValue → Store
  | [], ns, k, v => [⟨ns, k, v⟩]
  | e :: t, ns, k, v =>
    if entMatch ns k e then ⟨ns, k, v⟩ :: t else e :: Store.put t ns k v

/-- Model of `store.search(namespace)`: all entries of the namespace, in order. -/
def Store.search (s : Store) (ns : MemNamespace) : List Entry :=
  s.filter (fun e => e.ns == ns)

/-- Number of entries at a given `(ns, key)`. -/
def Store.countKey (s : Store) (ns : MemNamespace) (k : String) : Nat :=
  (s.filter (entMatch ns k)).length

/-- The `configurable` part of a `RunnableConfig`. -/
structure Configurable where
  user_id : Option String := none
  thread_id : Option String := none
deriving DecidableEq, Repr

/-- Model of `get_user_id` (`manager_memory.py` lines 115-119): `user_id`, falling back
to `thread_id`, falling back to `"default"`. -/
def getUserId (c : Configurable) : String :=
  c.user_id.getD (c.thread_id.getD "default")

/-! ## Python `str()` renderings

`load_manager_memories` interpolates stored values into an f-string, so the
embedding needs `str()` for the three stored value shapes: the profile
`model_dump()` dict repr and the pydantic object reprs.  These renderings
model CPython's output for ASCII strings without embedded quotes; no claim
depends on their exact text for non-empty stores. -/

/-- Python `repr` of a simple string: wrap in single quotes. -/
def pyReprStr (s : String) : String := sqs ++ s ++ sqs

/-- Python `repr` of `Optional[str]`. -/
def pyReprOptStr : Option String → String
  | none => "None"
  | some s => pyReprStr s

/-- Python `repr` of a list of strings. -/
def pyReprStrList (xs : List String) : String :=
  "[" ++ String.intercalate ", " (xs.map pyReprStr) ++ "]"

/-- Python `repr` of a `Dict[str, int]`. -/
def pyReprStrIntDict (xs : List (String × Int)) : String :=
  "\x7b" ++ String.intercalate ", " (xs.map fun p => pyReprStr p.1 ++ ": " ++ toString p.2) ++ "\x7d"

/-- Python `str` of a profile `model_dump()` dict. -/
def strProfileDump (p : Profile) : String :=
  "\x7b" ++ pyReprStr "name" ++ ": " ++ pyReprOptStr p.name ++ ", "
    ++ pyReprStr "preferred_tone" ++ ": " ++ pyReprStr p.preferred_tone ++ ", "
    ++ pyReprStr "primary_interests" ++ ": " ++ pyReprStrList p.primary_interests ++ ", "
    ++ pyReprStr "favorite_agents" ++ ": " ++ pyReprStrList p.favorite_agents ++ ", "
    ++ pyReprStr "usage_frequency" ++ ": " ++ pyReprStrIntDict p.usage_frequency ++ ", "
    ++ pyReprStr "last_seen" ++ ": " ++ pyReprOptStr p.last_seen ++ "\x7d"

/-- Python `str` of a `UserPreference` pydantic object. -/
def strUserPreference (p : UserPreference) : String :=
  "preference_type=" ++ pyReprStr p.preference_type
    ++ " preference_value=" ++ pyReprStr p.preference_value
    ++ " importance=" ++ toString p.importance

/-- Python `str` of a `SystemInstruction` pydantic object. -/
def strSystemInstruction (i : SystemInstruction) : String :=
  "instruction_type=" ++ pyReprStr i.instruction_type
    ++ " instruction_text=" ++ pyReprStr i.instruction_text
    ++ " created_date=" ++ i.created_date
    ++ " active=" ++ (if i.active then "True" else "False")

/-- Python `str` of a stored memory value. -/
def strMemValue : MemValue → String
  | .profile p => strProfileDump p
  | .pref p => strUserPreference p
  | .instr i => strSystemInstruction i

/-! ## `load_manager_memories` (`manager_memory.py` lines 125-164) -/

/-- The f-string of lines 149-162, with the three sections interpolated.
Whitespace reproduces the source bytes exactly. -/
def renderMemoryContext (profileStr preferences instructions : String) : String :=
  "\n    \n    <user_profile>\n    " ++ profileStr
    ++ "\n    </user_profile>\n    \n    <user_preferences>\n    " ++ preferences
    ++ "\n    </user_preferences>\n    \n    <system_instructions>\n    " ++ instructions
    ++ "\n    </system_instructions>\n    "

/-- Model of `load_manager_memories`: read the three namespaces and render the memory
context string. -/
def loadManagerMemories (store : Store) (userId : String) : String :=
  let profMems := store.search ("manager", "profile", userId)
  let profileStr :=
    match profMems.head? with
    | none => "None"
    | some e => strMemValue e.value
  let prefMems := store.search ("manager", "preferences", userId)
  let preferences :=
    if prefMems.isEmpty then ""
    else String.intercalate "\n" (prefMems.map fun m => "- " ++ strMemValue m.value)
  let instrMems := store.search ("manager", "instructions", userId)
  let instructions :=
    if instrMems.isEmpty then ""
    else String.intercalate "\n" (instrMems.map fun m => "- " ++ strMemValue m.value)
  renderMemoryContext profileStr preferences instructions

/-! ## Memory extractors as oracles

The trustcall extractors are LLM-backed: the embedding takes them as oracle
functions of the message tail and the `existing` argument.  `.error` models
an exception raised inside `extractor.invoke`; `.ok rs` models a successful
call whose `trustcall_result["responses"]` is `rs` (possibly empty when no
structured output was produced). -/

/-- The `existing` argument passed to an extractor: `None`, or a list of
`(key, tool_name, value)` triples. -/
abbrev ExistingMemories := Option (List (String × String × MemValue))

abbrev ProfileExtractor := List Message → ExistingMemories → Except Unit (List Profile)
abbrev PrefsExtractor := List Message → ExistingMemories → Except Unit (List UserPreferences)
abbrev InstrExtractor := List Message → ExistingMemories → Except Unit (List SystemInstructions)

/-- Build the `existing_memories` argument from the searched items
(`None` when the search is empty). -/
def existingMemories (items : List Entry) (toolName : String) : ExistingMemories :=
  if items.isEmpty then none
  else some (items.map fun item => (item.key, toolName, item.value))

/-! ## `update_profile_memory` (`manager_memory.py` lines 167-196)

The Python function also returns a `{"messages": [...]}` status dict, which
its only caller (`update_memory`) discards; the embedding returns the
updated store.  An exception raised by `profile_extractor.invoke`
propagates — there is no `try`/`except` on this path. -/

def update_profile_memory (extract : ProfileExtractor) (msgs : List Message)
    (config : Configurable) (store : Store) : Except Unit Store :=
  let userId := getUserId config
  let ns : MemNamespace := ("manager", "profile", userId)
  let existingItems := store.search ns
  let existing := existingMemories existingItems "Profile"
  match extract (lastN 5 msgs) existing with
  | .error e => .error e
  | .ok responses =>
    .ok (responses.enum.foldl
      (fun st p => st.put ns (toString p.1) (.profile p.2)) store)

/-- The deduplication key for a preference: `f"{type}_{hash(value)}"`.
Python's process-salted `hash` is the oracle `h`. -/
def prefKey (h : String → Int) (p : UserPreference) : String :=
  p.preference_type ++ "_" ++ toString (h p.preference_value)

/-! ## `update_preferences_memory` (`manager_memory.py` lines 199-236) -/

def update_preferences_memory (h : String → Int) (extract : PrefsExtractor)
    (msgs : List Message) (config : Configurable) (store : Store) : Except Unit Store :=
  let userId := getUserId config
  let ns : MemNamespace := ("manager", "preferences", userId)
  let existingItems := store.search ns
  let existing := existingMemories existingItems "UserPreferences"
  match extract (lastN 3 msgs) existing with
  | .error e => .error e
  | .ok responses =>
    match responses with
    | [] => .ok store
    | first :: _ =>
      .ok (first.preferences.foldl
        (fun st pref => st.put ns (prefKey h pref) (.pref pref)) store)

/-- The deduplication key for an instruction: `f"{type}_{hash(text)}"`. -/
def instrKey (h : String → Int) (i : SystemInstruction) : String :=
  i.instruction_type ++ "_" ++ toString (h i.instruction_text)

/-! ## `update_instructions_memory` (`manager_memory.py` lines 239-273) -/

def update_instructions_memory (h : String → Int) (extract : InstrExtractor)
    (msgs : List Message) (config : Configurable) (store : Store) : Except Unit Store :=
  let userId := getUserId config
  let ns : MemNamespace := ("manager", "instructions", userId)
  let existingItems := store.search ns
  let existing := existingMemories existingItems "SystemInstructions"
  match extract (lastN 3 msgs) existing with
  | .error e => .error e
  | .ok responses =>
    match responses with
    | [] => .ok store
    | first :: _ =>
      .ok (first.instructions.foldl
        (fun st instr => st.put ns (instrKey h instr) (.instr instr)) store)

/-! ## The router (`manager_agent.py` lines 53-97) -/

/-- The `ManagerState` fields the router reads. -/
structure ManagerState where
  messages : List Message
  memory_context : String := ""
deriving DecidableEq, Repr

/-- The dict a router call returns: a `messages` update (merged by
`add_messages`) and a `route`. -/
structure RouterUpdate where
  messages : List Message
  route : String
deriving DecidableEq, Repr

/-- The chat model as an oracle: prompt content to response content, or an
exception raised inside `llm.invoke`. -/
abbrev Llm := String → Except Unit String

/-- The `enriched_prompt` f-string of lines 59-65 (whitespace reproduces the
source bytes), followed by `.strip()`. -/
def enrichedPrompt (memoryContext userInput : String) : String :=
  pyStrip ("\n    <user_profile>\n    " ++ memoryContext
    ++ "\n    </user_profile>\n    \n    User asked: " ++ userInput ++ "\n    ")

/-- Line 70: the identity self-query test on the lowered user input. -/
def identityQuery (userInput : String) : Bool :=
  pyContains (pyLower userInput) "what is my name"
    || pyContains (pyLower userInput) "who am i"

/-- Lines 90-97: keyword routing over the stripped, lowered response.
`respMsg` is the `AIMessage` object returned by `llm.invoke` (appended raw in
the default branch). -/
def normalRouting (state : ManagerState) (respMsg : Message) : RouterUpdate :=
  let content := pyLower (pyStrip respMsg.content)
  if pyContains content "email" then ⟨state.messages, "email"⟩
  else if pyContains content "budget" then ⟨state.messages, "budget"⟩
  else ⟨[respMsg], "end"⟩

/-- The router `manager_router`.  Here `fid` models the fresh uuid minted for the message
object created during this call (the llm response in the default branch, the
shortcut `AIMessage` otherwise).  `state["messages"][-1]` on an empty
transcript raises (`.error`), as does a failing `llm.invoke` — the call at
line 67 happens before the identity shortcut is examined. -/
def manager_router (llm : Llm) (fid : Nat) (state : ManagerState) :
    Except Unit RouterUpdate :=
  match state.messages.getLast? with
  | none => .error ()
  | some lastMsg =>
    let userInput := lastMsg.content
    let memoryContext := state.memory_context
    match llm (enrichedPrompt memoryContext userInput) with
    | .error e => .error e
    | .ok respContent =>
      let respMsg : Message := ⟨fid, Role.assistant, respContent⟩
      if identityQuery userInput then
        if pyContains memoryContext "name" then
          match nameSearch memoryContext.toList with
          | some nm =>
            .ok ⟨[⟨fid, Role.assistant, "I remember you are " ++ nm ++ "!"⟩], "end"⟩
          | none => .ok (normalRouting state respMsg)
        else .ok (normalRouting state respMsg)
      else .ok (normalRouting state respMsg)

/-- The full shortcut condition: identity query, `"name"` occurring in the
memory context, and the name regex resolving a capture. -/
def shortcutFires (userInput memoryContext : String) : Bool :=
  identityQuery userInput && pyContains memoryContext "name"
    && (nameSearch memoryContext.toList).isSome

/-! ## The compiled graph (`manager_agent.py` lines 116-144) -/

/-- Nodes added by `build_manager_agent`. -/
def managerNodes : List String :=
  ["load_memory", "router", "email_agent", "budget_agent", "update_memory"]

/-- Unconditional edges of the graph (`START`/`END` are the langgraph
sentinels). -/
def managerEdges : List (String × String) :=
  [("START", "load_memory"), ("load_memory", "router"),
   ("email_agent", "update_memory"), ("budget_agent", "update_memory"),
   ("update_memory", "END")]

/-- The conditional-edge map attached to `router`, keyed by `s["route"]`. -/
def routeTarget (route : String) : Option String :=
  if route = "email" then some "email_agent"
  else if route = "budget" then some "budget_agent"
  else if route = "end" then some "update_memory"
  else none

/-- Successor of a node for a given route value. -/
def nextNode (route : String) (n : String) : Option String :=
  if n = "router" then routeTarget route
  else (managerEdges.find? (fun e => e.1 = n)).map (fun e => e.2)

/-- Walk the graph from a node with bounded fuel, collecting visited nodes. -/
def traceFrom (route : String) : Nat → String → List String
  | 0, n => [n]
  | fuel + 1, n =>
    match nextNode route n with
    | none => [n]
    | some m => n :: traceFrom route fuel m

/-- Execution trace of one compiled-graph invocation for a route value. -/
def execTrace (route : String) : List String :=
  traceFrom route 10 "START"

/-! ## One full turn of the compiled graph

`add_messages` merges a returned message list into the transcript by message
id: a message whose id is already present replaces it in place (so a node
returning `state["messages"]` leaves the transcript unchanged), a fresh id
appends. -/

def addOne (old : List Message) (m : Message) : List Message :=
  if old.any (fun x => x.id == m.id) then
    old.map (fun x => if x.id == m.id then m else x)
  else old ++ [m]

def addMessages (old new : List Message) : List Message :=
  new.foldl addOne old

/-- A fresh message id: larger than every id in the transcript. -/
def freshId (msgs : List Message) : Nat :=
  (msgs.map Message.id).foldl Nat.max 0 + 1

/-- All the external effects one turn consumes.  The two sub-agents are the
opaque handlers of the spec: given the transcript they produce the content of
the one final assistant message they append. -/
structure Oracles where
  llm : Llm
  emailAgent : List Message → String
  budgetAgent : List Message → String
  profileExtract : ProfileExtractor
  prefsExtract : PrefsExtractor
  instrExtract : InstrExtractor
  hash : String → Int

/-- The `update_memory` node (`manager_agent.py` lines 101-113): run the
three extractor updates in order; any exception propagates.  The node
returns `{"messages": state["messages"]}`, leaving the transcript unchanged. -/
def update_memory (o : Oracles) (msgs : List Message) (config : Configurable)
    (store : Store) : Except Unit Store :=
  match update_profile_memory o.profileExtract msgs config store with
  | .error e => .error e
  | .ok s1 =>
    match update_preferences_memory o.hash o.prefsExtract msgs config s1 with
    | .error e => .error e
    | .ok s2 => update_instructions_memory o.hash o.instrExtract msgs config s2

/-- Handler dispatch after the router: the selected sub-agent appends its one
final assistant message; route `end` leaves the transcript as the router
produced it. -/
def dispatchMessages (o : Oracles) (route : String) (msgs : List Message) :
    List Message :=
  if route = "email" then
    addMessages msgs [⟨freshId msgs, Role.assistant, o.emailAgent msgs⟩]
  else if route = "budget" then
    addMessages msgs [⟨freshId msgs, Role.assistant, o.budgetAgent msgs⟩]
  else msgs

/-- Result of one turn. -/
structure TurnResult where
  messages : List Message
  store : Store
  route : String
deriving DecidableEq, Repr

/-- One invocation of the compiled manager graph:
`load_memory → router → (handler | direct end) → update_memory → END`. -/
def runTurn (o : Oracles) (config : Configurable) (store0 : Store)
    (msgs0 : List Message) : Except Unit TurnResult :=
  let ctx := loadManagerMemories store0 (getUserId config)
  match manager_router o.llm (freshId msgs0) ⟨msgs0, ctx⟩ with
  | .error e => .error e
  | .ok upd =>
    let msgs1 := addMessages msgs0 upd.messages
    let msgs2 := dispatchMessages o upd.route msgs1
    match update_memory o msgs2 config store0 with
    | .error e => .error e
    | .ok store1 => .ok ⟨msgs2, store1, upd.route⟩

/-! ## Store lemmas -/

theorem entMatch_self (ns : MemNamespace) (k : String) (v : MemValue) :
    entMatch ns k ⟨ns, k, v⟩ = true := by
  simp [entMatch]

/-- Upserting the same key and value twice is the same as doing it once. -/
theorem put_put_same (s : Store) (ns : MemNamespace) (k : String) (v : MemValue) :
    (s.put ns k v).put ns k v = s.put ns k v := by
  induction s with
  | nil => simp [Store.put, entMatch_self]
  | cons e t ih =>
    by_cases hm : entMatch ns k e
    · simp [Store.put, hm, entMatch_self]
    · simp [Store.put, hm, ih]

/-- After an upsert, a store that held at most one entry at `(ns, k)` holds
exactly one. -/
theorem countKey_put (s : Store) (ns : MemNamespace) (k : String) (v : MemValue)
    (hle : Store.countKey s ns k ≤ 1) : Store.countKey (s.put ns k v) ns k = 1 := by
  induction s with
  | nil => simp [Store.put, Store.countKey, entMatch_self]
  | cons e t ih =>
    by_cases hm : entMatch ns k e = true
    · have h2 : Store.countKey (e :: t) ns k = Store.countKey t ns k + 1 := by
        simp [Store.countKey, List.filter_cons, hm]
      have h3 : Store.put (e :: t) ns k v = ⟨ns, k, v⟩ :: t := by
        simp [Store.put, hm]
      have h4 : Store.countKey (⟨ns, k, v⟩ :: t) ns k = Store.countKey t ns k + 1 := by
        simp [Store.countKey, List.filter_cons, entMatch_self]
      rw [h3, h4]
      omega
    · have hm2 : entMatch ns k e = false := by simpa using hm
      have h2 : Store.countKey (e :: t) ns k = Store.countKey t ns k := by
        simp [Store.countKey, List.filter_cons, hm2]
      have h3 : Store.put (e :: t) ns k v = e :: Store.put t ns k v := by
        simp [Store.put, hm2]
      have h4 : Store.countKey (e :: Store.put t ns k v) ns k
          = Store.countKey (Store.put t ns k v) ns k := by
        simp [Store.countKey, List.filter_cons, hm2]
      rw [h3, h4]
      exact ih (by omega)

/-- Upserting into a namespace that was empty yields exactly that one entry. -/
theorem search_put_new (s : Store) (ns : MemNamespace) (k : String) (v : MemValue)
    (h : Store.search s ns = []) : Store.search (s.put ns k v) ns = [⟨ns, k, v⟩] := by
  induction s with
  | nil => simp [Store.put, Store.search]
  | cons e t ih =>
    by_cases he : (e.ns == ns) = true
    · simp [Store.search, List.filter_cons, he] at h
    · have ht : Store.search t ns = [] := by
        simpa [Store.search, List.filter_cons, he] using h
      have hm : entMatch ns k e = false := by
        simp [entMatch, he]
      simp [Store.put, hm, Store.search, List.filter_cons, he]
      exact ih ht

/-! ## Substring lemmas -/

theorem isPrefixOf_append_self (n b : List Char) : n.isPrefixOf (n ++ b) = true := by
  induction n with
  | nil => simp [List.isPrefixOf]
  | cons c t ih => simp [List.isPrefixOf, ih]

theorem listContains_append_middle (a n b : List Char) :
    listContains (a ++ (n ++ b)) n = true := by
  induction a with
  | nil =>
    rw [List.nil_append]
    unfold listContains
    rw [isPrefixOf_append_self]
    simp
  | cons c t ih =>
    rw [List.cons_append]
    unfold listContains
    simp [ih]

/-- A string assembled around `n` contains `n` as a substring. -/
theorem pyContains_append_middle (a n b : String) :
    pyContains (a ++ n ++ b) n = true := by
  have : (a ++ n ++ b).toList = a.toList ++ (n.toList ++ b.toList) := by
    simp [String.toList, String.data_append]
  rw [pyContains, this, listContains_append_middle]

/-! ## Router lemmas -/

/-- When the shortcut condition does not fully fire, the router performs the
normal keyword routing on the model's response. -/
theorem manager_router_not_shortcut (llm : Llm) (fid : Nat) (msgs : List Message)
    (ctx : String) (lm : Message) (c : String)
    (hlast : msgs.getLast? = some lm)
    (hllm : llm (enrichedPrompt ctx lm.content) = .ok c)
    (hsf : shortcutFires lm.content ctx = false) :
    manager_router llm fid ⟨msgs, ctx⟩ =
      .ok (normalRouting ⟨msgs, ctx⟩ ⟨fid, Role.assistant, c⟩) := by
  unfold manager_router
  simp only [hlast, hllm]
  by_cases h1 : identityQuery lm.content
  · by_cases h2 : pyContains ctx "name"
    · cases hns : nameSearch ctx.toList with
      | none => simp [h1, h2, hns]
      | some nm =>
        have hns2 : nameSearch ctx.data = some nm := hns
        simp [shortcutFires, h1, h2, hns2] at hsf
    · simp [h1, h2]
  · simp [h1]

/-- A failing model call propagates out of the router. -/
theorem manager_router_llm_error (llm : Llm) (fid : Nat) (msgs : List Message)
    (ctx : String) (lm : Message)
    (hlast : msgs.getLast? = some lm)
    (hllm : llm (enrichedPrompt ctx lm.content) = .error ()) :
    manager_router llm fid ⟨msgs, ctx⟩ = .error () := by
  unfold manager_router
  simp only [hlast, hllm]

/-- When the full shortcut condition fires, the router answers directly from
memory. -/
theorem manager_router_shortcut (llm : Llm) (fid : Nat) (msgs : List Message)
    (ctx : String) (lm : Message) (c nm : String)
    (hlast : msgs.getLast? = some lm)
    (hllm : llm (enrichedPrompt ctx lm.content) = .ok c)
    (h1 : identityQuery lm.content = true)
    (h2 : pyContains ctx "name" = true)
    (hns : nameSearch ctx.toList = some nm) :
    manager_router llm fid ⟨msgs, ctx⟩ =
      .ok ⟨[⟨fid, Role.assistant, "I remember you are " ++ nm ++ "!"⟩], "end"⟩ := by
  unfold manager_router
  simp only [hlast, hllm, h1, h2, hns]
  simp

/-- Every successful router result carries one of the three route strings. -/
theorem normalRouting_route (state : ManagerState) (m : Message) :
    (normalRouting state m).route = "email" ∨ (normalRouting state m).route = "budget"
      ∨ (normalRouting state m).route = "end" := by
  unfold normalRouting
  by_cases he : pyContains (pyLower (pyStrip m.content)) "email"
  · simp [he]
  · by_cases hb : pyContains (pyLower (pyStrip m.content)) "budget"
    · simp [he, hb]
    · simp [he, hb]

/-! ## Extractor-success totality lemmas -/

theorem update_profile_memory_total (ex : ProfileExtractor) (msgs : List Message)
    (cfg : Configurable) (store : Store)
    (hx : ∀ a b, ∃ r, ex a b = .ok r) :
    ∃ s, update_profile_memory ex msgs cfg store = .ok s := by
  simp only [update_profile_memory]
  obtain ⟨r, hr⟩ := hx (lastN 5 msgs)
    (existingMemories (Store.search store ("manager", "profile", getUserId cfg)) "Profile")
  rw [hr]
  exact ⟨_, rfl⟩

theorem update_preferences_memory_total (h : String → Int) (ex : PrefsExtractor)
    (msgs : List Message) (cfg : Configurable) (store : Store)
    (hx : ∀ a b, ∃ r, ex a b = .ok r) :
    ∃ s, update_preferences_memory h ex msgs cfg store = .ok s := by
  simp only [update_preferences_memory]
  obtain ⟨r, hr⟩ := hx (lastN 3 msgs)
    (existingMemories (Store.search store ("manager", "preferences", getUserId cfg))
      "UserPreferences")
  rw [hr]
  cases r with
  | nil => exact ⟨_, rfl⟩
  | cons first rest => exact ⟨_, rfl⟩

theorem update_instructions_memory_total (h : String → Int) (ex : InstrExtractor)
    (msgs : List Message) (cfg : Configurable) (store : Store)
    (hx : ∀ a b, ∃ r, ex a b = .ok r) :
    ∃ s, update_instructions_memory h ex msgs cfg store = .ok s := by
  simp only [update_instructions_memory]
  obtain ⟨r, hr⟩ := hx (lastN 3 msgs)
    (existingMemories (Store.search store ("manager", "instructions", getUserId cfg))
      "SystemInstructions")
  rw [hr]
  cases r with
  | nil => exact ⟨_, rfl⟩
  | cons first rest => exact ⟨_, rfl⟩

theorem update_memory_total (o : Oracles) (msgs : List Message) (cfg : Configurable)
    (store : Store)
    (hp : ∀ a b, ∃ r, o.profileExtract a b = .ok r)
    (hq : ∀ a b, ∃ r, o.prefsExtract a b = .ok r)
    (hi : ∀ a b, ∃ r, o.instrExtract a b = .ok r) :
    ∃ s, update_memory o msgs cfg store = .ok s := by
  obtain ⟨s1, h1⟩ := update_profile_memory_total o.profileExtract msgs cfg store hp
  obtain ⟨s2, h2⟩ := update_preferences_memory_total o.hash o.prefsExtract msgs cfg s1 hq
  obtain ⟨s3, h3⟩ := update_instructions_memory_total o.hash o.instrExtract msgs cfg s2 hi
  refine ⟨s3, ?_⟩
  unfold update_memory
  rw [h1]
  simp only [h2, h3]

/-! ## Concrete fixtures -/

/-- Oracles whose profile extractor raises while everything else succeeds:
the model chats, both sub-agents answer, the other two extractors return no
structured output. -/
def failingProfileOracles : Oracles where
  llm := fun _ => .ok "hi there friend"
  emailAgent := fun _ => "email handled"
  budgetAgent := fun _ => "budget handled"
  profileExtract := fun _ _ => .error ()
  prefsExtract := fun _ _ => .ok []
  instrExtract := fun _ _ => .ok []
  hash := fun _ => 0

/-- Oracles where every extractor succeeds with no structured output. -/
def okOracles : Oracles where
  llm := fun _ => .ok "greetings"
  emailAgent := fun _ => "email handled"
  budgetAgent := fun _ => "budget handled"
  profileExtract := fun _ _ => .ok []
  prefsExtract := fun _ _ => .ok []
  instrExtract := fun _ _ => .ok []
  hash := fun _ => 0

/-- The memory context rendered for a user with no stored memories. -/
def emptyMemoryContext : String := renderMemoryContext "None" "" ""

/-- A memory context carrying a stored name, as the profile dict renders it:
`{'name': 'Quang'}`. -/
def ctxQuang : String :=
  "\x7b" ++ sqs ++ "name" ++ sqs ++ ": " ++ sqs ++ "Quang" ++ sqs ++ "\x7d"

/-! ## Claims -/

/-- C1 (counterexample): with a user message matching the identity self-query
pattern and a memory context with a resolvable name field, a failing model
call still crashes the router — the claim says the classifier is
short-circuited without invoking the language model, but `llm.invoke` on line
67 runs before the shortcut is examined, so the router's outcome depends on
it. -/
theorem orbita_c1_counterexample :
    identityQuery "What is my name?" = true
      ∧ pyContains ctxQuang "name" = true
      ∧ nameSearch ctxQuang.toList = some "Quang"
      ∧ manager_router (fun _ => .error ()) 2
          ⟨[⟨1, Role.user, "What is my name?"⟩], ctxQuang⟩ = .error () :=
  ⟨by decide, by decide, by decide, rfl⟩

/-- C1 (amended): when the latest user message matches an identity self-query
pattern and the memory context contains a resolvable name field, the router
returns a direct answer containing the stored name with route `end`,
bypassing the keyword classification — but the language model is still
invoked first (its successful response is discarded on this path). -/
theorem orbita_c1_amended (llm : Llm) (fid : Nat) (msgs : List Message) (ctx : String)
    (lm : Message) (c nm : String)
    (hlast : msgs.getLast? = some lm)
    (hllm : llm (enrichedPrompt ctx lm.content) = .ok c)
    (h1 : identityQuery lm.content = true)
    (h2 : pyContains ctx "name" = true)
    (hns : nameSearch ctx.toList = some nm) :
    manager_router llm fid ⟨msgs, ctx⟩ =
        .ok ⟨[⟨fid, Role.assistant, "I remember you are " ++ nm ++ "!"⟩], "end"⟩
      ∧ pyContains ("I remember you are " ++ nm ++ "!") nm = true :=
  ⟨manager_router_shortcut llm fid msgs ctx lm c nm hlast hllm h1 h2 hns,
    pyContains_append_middle "I remember you are " nm "!"⟩

/-- C1 (witness): the amended claim evaluated at the specification's own
example — context name `Quang`, message `what is my name?`. -/
theorem orbita_c1_witness :
    manager_router (fun _ => .ok "answering") 2
        ⟨[⟨1, Role.user, "What is my name?"⟩], ctxQuang⟩ =
        .ok ⟨[⟨2, Role.assistant, "I remember you are " ++ "Quang" ++ "!"⟩], "end"⟩
      ∧ pyContains ("I remember you are " ++ "Quang" ++ "!") "Quang" = true :=
  orbita_c1_amended (fun _ => .ok "answering") 2 _ ctxQuang
    ⟨1, Role.user, "What is my name?"⟩ "answering" "Quang"
    rfl rfl (by decide) (by decide) (by decide)

/-- C2: for each of the three route outcomes the compiled graph's execution
trace runs `update_memory` exactly once, immediately after the selected
handler (or directly after the router for `end`) and immediately before the
terminal `END`. -/
theorem orbita_c2_update_always_runs (r : String)
    (h : r = "email" ∨ r = "budget" ∨ r = "end") :
    (execTrace r).count "update_memory" = 1
      ∧ execTrace r = ["START", "load_memory", "router"]
          ++ (if r = "email" then ["email_agent"]
              else if r = "budget" then ["budget_agent"] else [])
          ++ ["update_memory", "END"] := by
  rcases h with h | h | h <;> subst h <;> exact ⟨by decide, by decide⟩

/-- C2 (witness): the invariant at route `end`. -/
theorem orbita_c2_witness :
    (execTrace "end").count "update_memory" = 1
      ∧ execTrace "end" = ["START", "load_memory", "router"]
          ++ (if "end" = "email" then ["email_agent"]
              else if "end" = "budget" then ["budget_agent"] else [])
          ++ ["update_memory", "END"] :=
  orbita_c2_update_always_runs "end" (Or.inr (Or.inr rfl))

/-- C4 (counterexample): a model call that raises inside the router is not
caught — the router propagates the exception instead of falling back to
route `end` with a generic direct response. -/
theorem orbita_c4_counterexample :
    manager_router (fun _ => .error ()) 2
      ⟨[⟨1, Role.user, "please check my email inbox"⟩], ""⟩ = .error () := rfl

/-- C4 (amended): an error from the underlying completion call propagates out
of the router (crashing the turn); only a successful response that contains
no category keyword falls back to route `end`, with the raw response as the
direct answer. -/
theorem orbita_c4_amended :
    (∀ (llm : Llm) (fid : Nat) (msgs : List Message) (ctx : String) (lm : Message),
      msgs.getLast? = some lm → llm (enrichedPrompt ctx lm.content) = .error () →
        manager_router llm fid ⟨msgs, ctx⟩ = .error ())
  ∧ (∀ (llm : Llm) (fid : Nat) (msgs : List Message) (ctx : String) (lm : Message) (c : String),
      msgs.getLast? = some lm → llm (enrichedPrompt ctx lm.content) = .ok c →
        shortcutFires lm.content ctx = false →
        pyContains (pyLower (pyStrip c)) "email" = false →
        pyContains (pyLower (pyStrip c)) "budget" = false →
        manager_router llm fid ⟨msgs, ctx⟩ = .ok ⟨[⟨fid, Role.assistant, c⟩], "end"⟩) := by
  constructor
  · intro llm fid msgs ctx lm hlast hllm
    exact manager_router_llm_error llm fid msgs ctx lm hlast hllm
  · intro llm fid msgs ctx lm c hlast hllm hsf he hb
    rw [manager_router_not_shortcut llm fid msgs ctx lm c hlast hllm hsf]
    simp [normalRouting, he, hb]

/-- C4 (witness): both amended branches at concrete inputs. -/
theorem orbita_c4_witness :
    manager_router (fun _ => .error ()) 3
        ⟨[⟨1, Role.user, "summarize my budget"⟩], ""⟩ = .error ()
      ∧ manager_router (fun _ => .ok "just chatting") 3
          ⟨[⟨1, Role.user, "hi"⟩], ""⟩ =
          .ok ⟨[⟨3, Role.assistant, "just chatting"⟩], "end"⟩ :=
  ⟨orbita_c4_amended.1 (fun _ => .error ()) 3 _ ""
      ⟨1, Role.user, "summarize my budget"⟩ rfl rfl,
    orbita_c4_amended.2 (fun _ => .ok "just chatting") 3 _ ""
      ⟨1, Role.user, "hi"⟩ "just chatting" rfl rfl (by decide) (by decide) (by decide)⟩

/-- C5: when the classifier response contains both the `email` and the
`budget` keyword (and the identity shortcut does not fire), the `email`
check on line 92 runs first, so the router selects route `email`. -/
theorem orbita_c5_email_precedence (llm : Llm) (fid : Nat) (msgs : List Message)
    (ctx : String) (lm : Message) (c : String)
    (hlast : msgs.getLast? = some lm)
    (hllm : llm (enrichedPrompt ctx lm.content) = .ok c)
    (hsf : shortcutFires lm.content ctx = false)
    (he : pyContains (pyLower (pyStrip c)) "email" = true)
    (_hb : pyContains (pyLower (pyStrip c)) "budget" = true) :
    manager_router llm fid ⟨msgs, ctx⟩ = .ok ⟨msgs, "email"⟩ := by
  rw [manager_router_not_shortcut llm fid msgs ctx lm c hlast hllm hsf]
  simp [normalRouting, he]

/-- C5 (witness): a response naming both categories routes to `email`. -/
theorem orbita_c5_witness :
    manager_router (fun _ => .ok "Use the EMAIL or budget agent") 2
        ⟨[⟨1, Role.user, "do something"⟩], ""⟩ =
      .ok ⟨[⟨1, Role.user, "do something"⟩], "email"⟩ :=
  orbita_c5_email_precedence (fun _ => .ok "Use the EMAIL or budget agent") 2
    [⟨1, Role.user, "do something"⟩] "" ⟨1, Role.user, "do something"⟩
    "Use the EMAIL or budget agent" rfl rfl (by decide) (by decide) (by decide)

/-- C7: a classifier response containing no category keyword routes to `end`
and the raw response message itself is the returned transcript update. -/
theorem orbita_c7_default_end (llm : Llm) (fid : Nat) (msgs : List Message)
    (ctx : String) (lm : Message) (c : String)
    (hlast : msgs.getLast? = some lm)
    (hllm : llm (enrichedPrompt ctx lm.content) = .ok c)
    (hsf : shortcutFires lm.content ctx = false)
    (he : pyContains (pyLower (pyStrip c)) "email" = false)
    (hb : pyContains (pyLower (pyStrip c)) "budget" = false) :
    manager_router llm fid ⟨msgs, ctx⟩ = .ok ⟨[⟨fid, Role.assistant, c⟩], "end"⟩ := by
  rw [manager_router_not_shortcut llm fid msgs ctx lm c hlast hllm hsf]
  simp [normalRouting, he, hb]

/-- C7 (witness): a keyword-free response is appended as the direct answer. -/
theorem orbita_c7_witness :
    manager_router (fun _ => .ok "I can help with general questions.") 4
        ⟨[⟨1, Role.user, "hello there"⟩], ""⟩ =
      .ok ⟨[⟨4, Role.assistant, "I can help with general questions."⟩], "end"⟩ :=
  orbita_c7_default_end (fun _ => .ok "I can help with general questions.") 4
    [⟨1, Role.user, "hello there"⟩] "" ⟨1, Role.user, "hello there"⟩
    "I can help with general questions." rfl rfl (by decide) (by decide) (by decide)

/-- C10: every successful router result uses one of the routes `email`,
`budget`, `end` — never `calendar`; the compiled graph has no calendar node
and the conditional-edge map has no calendar branch; and a classifier
response naming only `calendar` falls through to the `end` branch with the
raw response as direct answer. -/
theorem orbita_c10_route_closed :
    (∀ (llm : Llm) (fid : Nat) (state : ManagerState) (u : RouterUpdate),
      manager_router llm fid state = .ok u →
        u.route = "email" ∨ u.route = "budget" ∨ u.route = "end")
  ∧ ("calendar" ∈ managerNodes ↔ False)
  ∧ ("calendar_agent" ∈ managerNodes ↔ False)
  ∧ routeTarget "calendar" = none
  ∧ (∀ (llm : Llm) (fid : Nat) (msgs : List Message) (ctx : String) (lm : Message) (c : String),
      msgs.getLast? = some lm → llm (enrichedPrompt ctx lm.content) = .ok c →
        shortcutFires lm.content ctx = false →
        pyContains (pyLower (pyStrip c)) "calendar" = true →
        pyContains (pyLower (pyStrip c)) "email" = false →
        pyContains (pyLower (pyStrip c)) "budget" = false →
        manager_router llm fid ⟨msgs, ctx⟩ = .ok ⟨[⟨fid, Role.assistant, c⟩], "end"⟩) := by
  refine ⟨?_, by decide, by decide, by decide, ?_⟩
  · intro llm fid state u hu
    simp only [manager_router] at hu
    split at hu
    · simp at hu
    · split at hu
      · simp at hu
      · split at hu
        · split at hu
          · split at hu
            · injection hu with h
              subst h
              simp
            · injection hu with h
              subst h
              exact normalRouting_route _ _
          · injection hu with h
            subst h
            exact normalRouting_route _ _
        · injection hu with h
          subst h
          exact normalRouting_route _ _
  · intro llm fid msgs ctx lm c hlast hllm hsf _hcal he hb
    rw [manager_router_not_shortcut llm fid msgs ctx lm c hlast hllm hsf]
    simp [normalRouting, he, hb]

/-- C10 (witness): the graph facts, plus a calendar-classified turn ending in
the direct-answer branch. -/
theorem orbita_c10_witness :
    ("calendar" ∈ managerNodes ↔ False)
      ∧ manager_router (fun _ => .ok "calendar") 2
          ⟨[⟨1, Role.user, "schedule a meeting"⟩], ""⟩ =
          .ok ⟨[⟨2, Role.assistant, "calendar"⟩], "end"⟩ :=
  ⟨orbita_c10_route_closed.2.1,
    orbita_c10_route_closed.2.2.2.2 (fun _ => .ok "calendar") 2
      [⟨1, Role.user, "schedule a meeting"⟩] "" ⟨1, Role.user, "schedule a meeting"⟩
      "calendar" rfl rfl (by decide) (by decide) (by decide) (by decide)⟩

/-- C3 (counterexample): a profile extractor that raises makes the whole turn
fail — `update_memory` has no `try`/`except`, so the already-computed direct
answer (`"hi there friend"`, routed `end`) is discarded and the turn aborts
instead of completing. -/
theorem orbita_c3_counterexample :
    runTurn failingProfileOracles ⟨some "u", none⟩ [] [⟨1, Role.user, "hello"⟩] =
      .error () := rfl

/-- C3 (amended): an extractor that yields no parsable structured output
(empty `responses`) leaves the store untouched and returns normally, for each
of the three extractors; and whenever no extractor raises, the turn completes
and returns exactly the transcript computed by the router and handler before
the memory update.  An extractor that raises, however, aborts the turn (see
the counterexample). -/
theorem orbita_c3_amended :
    (∀ (ex : ProfileExtractor) (msgs : List Message) (cfg : Configurable) (store : Store),
      (∀ a b, ex a b = .ok []) → update_profile_memory ex msgs cfg store = .ok store)
  ∧ (∀ (h : String → Int) (ex : PrefsExtractor) (msgs : List Message)
        (cfg : Configurable) (store : Store),
      (∀ a b, ex a b = .ok []) → update_preferences_memory h ex msgs cfg store = .ok store)
  ∧ (∀ (h : String → Int) (ex : InstrExtractor) (msgs : List Message)
        (cfg : Configurable) (store : Store),
      (∀ a b, ex a b = .ok []) → update_instructions_memory h ex msgs cfg store = .ok store)
  ∧ (∀ (o : Oracles) (cfg : Configurable) (store0 : Store) (msgs0 : List Message)
        (upd : RouterUpdate) (store1 : Store),
      manager_router o.llm (freshId msgs0)
          ⟨msgs0, loadManagerMemories store0 (getUserId cfg)⟩ = .ok upd →
      update_memory o (dispatchMessages o upd.route (addMessages msgs0 upd.messages))
          cfg store0 = .ok store1 →
      runTurn o cfg store0 msgs0 =
        .ok ⟨dispatchMessages o upd.route (addMessages msgs0 upd.messages), store1, upd.route⟩)
  ∧ (∀ (o : Oracles) (msgs : List Message) (cfg : Configurable) (store : Store),
      (∀ a b, ∃ r, o.profileExtract a b = .ok r) →
      (∀ a b, ∃ r, o.prefsExtract a b = .ok r) →
      (∀ a b, ∃ r, o.instrExtract a b = .ok r) →
      ∃ s, update_memory o msgs cfg store = .ok s) := by
  refine ⟨?_, ?_, ?_, ?_, ?_⟩
  · intro ex msgs cfg store hx
    simp only [update_profile_memory]
    rw [hx]
    rfl
  · intro h ex msgs cfg store hx
    simp only [update_preferences_memory]
    rw [hx]
  · intro h ex msgs cfg store hx
    simp only [update_instructions_memory]
    rw [hx]
  · intro o cfg store0 msgs0 upd store1 hr hu
    simp only [runTurn]
    rw [hr]
    simp only [hu]
  · intro o msgs cfg store hp hq hi
    exact update_memory_total o msgs cfg store hp hq hi

/-- C3 (witness): a no-output extractor is a no-op, and a turn with
non-raising extractors completes with the direct answer in place. -/
theorem orbita_c3_witness :
    update_profile_memory (fun _ _ => .ok []) [] ⟨some "w", none⟩ [] = .ok []
      ∧ runTurn okOracles ⟨some "u2", none⟩ [] [⟨1, Role.user, "good morning"⟩] =
          .ok ⟨dispatchMessages okOracles "end"
                (addMessages [⟨1, Role.user, "good morning"⟩]
                  [⟨2, Role.assistant, "greetings"⟩]),
              [], "end"⟩ :=
  ⟨orbita_c3_amended.1 (fun _ _ => .ok []) [] ⟨some "w", none⟩ [] (fun _ _ => rfl),
    orbita_c3_amended.2.2.2.1 okOracles ⟨some "u2", none⟩ [] [⟨1, Role.user, "good morning"⟩]
      ⟨[⟨2, Role.assistant, "greetings"⟩], "end"⟩ [] rfl rfl⟩

/-- C6 (counterexample): one profile-extractor call returning two responses
stores two entries (keys `"0"` and `"1"`) in the profile namespace — the
namespace is keyed by response index, not held to a singleton. -/
theorem orbita_c6_counterexample :
    (update_profile_memory (fun _ _ => .ok [{}, { name := some "Quang" }]) []
        ⟨some "u", none⟩ []).map
      (fun st => (Store.search st ("manager", "profile", "u")).length) = .ok 2 := rfl

/-- C6 (amended): provided each profile-extractor call returns a single
(merged) profile response, the update overwrites the key-`"0"` entry:
running it twice with the same extractor output equals a single update, and
from an empty profile namespace one update leaves exactly the one entry. -/
theorem orbita_c6_amended (ex : ProfileExtractor) (p : Profile) (msgs : List Message)
    (cfg : Configurable) (store : Store)
    (hx : ∀ a b, ex a b = .ok [p]) :
    update_profile_memory ex msgs cfg store =
        .ok (store.put ("manager", "profile", getUserId cfg) "0" (.profile p))
      ∧ update_profile_memory ex msgs cfg
          (store.put ("manager", "profile", getUserId cfg) "0" (.profile p)) =
        .ok (store.put ("manager", "profile", getUserId cfg) "0" (.profile p))
      ∧ (Store.search store ("manager", "profile", getUserId cfg) = [] →
          Store.search (store.put ("manager", "profile", getUserId cfg) "0" (.profile p))
            ("manager", "profile", getUserId cfg) =
            [⟨("manager", "profile", getUserId cfg), "0", .profile p⟩]) := by
  have h0 : toString (0 : Nat) = "0" := rfl
  refine ⟨?_, ?_, ?_⟩
  · simp only [update_profile_memory]
    rw [hx]
    simp [List.enum, List.enumFrom, h0]
  · simp only [update_profile_memory]
    rw [hx]
    simp [List.enum, List.enumFrom, h0, put_put_same]
  · intro hs
    exact search_put_new store ("manager", "profile", getUserId cfg) "0" (.profile p) hs

/-- C6 (witness): the amended claim at a one-field profile on an empty
store. -/
theorem orbita_c6_witness :
    update_profile_memory (fun _ _ => .ok [{ name := some "Quang" }]) []
        ⟨some "u", none⟩ [] =
        .ok (Store.put [] ("manager", "profile", getUserId ⟨some "u", none⟩) "0"
          (.profile { name := some "Quang" }))
      ∧ update_profile_memory (fun _ _ => .ok [{ name := some "Quang" }]) []
          ⟨some "u", none⟩
          (Store.put [] ("manager", "profile", getUserId ⟨some "u", none⟩) "0"
            (.profile { name := some "Quang" })) =
        .ok (Store.put [] ("manager", "profile", getUserId ⟨some "u", none⟩) "0"
          (.profile { name := some "Quang" }))
      ∧ (Store.search [] ("manager", "profile", getUserId ⟨some "u", none⟩) = [] →
          Store.search
            (Store.put [] ("manager", "profile", getUserId ⟨some "u", none⟩) "0"
              (.profile { name := some "Quang" }))
            ("manager", "profile", getUserId ⟨some "u", none⟩) =
            [⟨("manager", "profile", getUserId ⟨some "u", none⟩), "0",
              .profile { name := some "Quang" }⟩]) :=
  orbita_c6_amended (fun _ _ => .ok [{ name := some "Quang" }]) { name := some "Quang" }
    [] ⟨some "u", none⟩ [] (fun _ _ => rfl)

/-- C8: a preference written via the preferences update step is stored under
the deterministic key `f"{preference_type}_{hash(preference_value)}"`;
writing the same record twice equals a single write, and the namespace holds
exactly one entry under that key (given it held at most one before).  The
same holds for instructions keyed by
`f"{instruction_type}_{hash(instruction_text)}"`. -/
theorem orbita_c8_dedup :
    (∀ (h : String → Int) (ex : PrefsExtractor) (p : UserPreference)
        (msgs : List Message) (cfg : Configurable) (store : Store),
      (∀ a b, ex a b = .ok [⟨[p]⟩]) →
      update_preferences_memory h ex msgs cfg store =
          .ok (store.put ("manager", "preferences", getUserId cfg) (prefKey h p) (.pref p))
        ∧ update_preferences_memory h ex msgs cfg
            (store.put ("manager", "preferences", getUserId cfg) (prefKey h p) (.pref p)) =
          .ok (store.put ("manager", "preferences", getUserId cfg) (prefKey h p) (.pref p))
        ∧ (Store.countKey store ("manager", "preferences", getUserId cfg) (prefKey h p) ≤ 1 →
            Store.countKey
              (store.put ("manager", "preferences", getUserId cfg) (prefKey h p) (.pref p))
              ("manager", "preferences", getUserId cfg) (prefKey h p) = 1))
  ∧ (∀ (h : String → Int) (ex : InstrExtractor) (i : SystemInstruction)
        (msgs : List Message) (cfg : Configurable) (store : Store),
      (∀ a b, ex a b = .ok [⟨[i]⟩]) →
      update_instructions_memory h ex msgs cfg store =
          .ok (store.put ("manager", "instructions", getUserId cfg) (instrKey h i) (.instr i))
        ∧ update_instructions_memory h ex msgs cfg
            (store.put ("manager", "instructions", getUserId cfg) (instrKey h i) (.instr i)) =
          .ok (store.put ("manager", "instructions", getUserId cfg) (instrKey h i) (.instr i))
        ∧ (Store.countKey store ("manager", "instructions", getUserId cfg) (instrKey h i) ≤ 1 →
            Store.countKey
              (store.put ("manager", "instructions", getUserId cfg) (instrKey h i) (.instr i))
              ("manager", "instructions", getUserId cfg) (instrKey h i) = 1)) := by
  constructor
  · intro h ex p msgs cfg store hx
    refine ⟨?_, ?_, ?_⟩
    · simp only [update_preferences_memory]
      rw [hx]
      simp
    · simp only [update_preferences_memory]
      rw [hx]
      simp [put_put_same]
    · intro hle
      exact countKey_put store ("manager", "preferences", getUserId cfg)
        (prefKey h p) (.pref p) hle
  · intro h ex i msgs cfg store hx
    refine ⟨?_, ?_, ?_⟩
    · simp only [update_instructions_memory]
      rw [hx]
      simp
    · simp only [update_instructions_memory]
      rw [hx]
      simp [put_put_same]
    · intro hle
      exact countKey_put store ("manager", "instructions", getUserId cfg)
        (instrKey h i) (.instr i) hle

/-- C8 (witness): deduplication at a concrete preference and instruction with
the length function standing in for the process hash. -/
theorem orbita_c8_witness :
    update_preferences_memory (fun s => (s.length : Int))
        (fun _ _ => .ok [⟨[⟨"response_style", "brief", 5⟩]⟩]) []
        ⟨some "u", none⟩
        (Store.put [] ("manager", "preferences", getUserId ⟨some "u", none⟩)
          (prefKey (fun s => (s.length : Int)) ⟨"response_style", "brief", 5⟩)
          (.pref ⟨"response_style", "brief", 5⟩)) =
      .ok (Store.put [] ("manager", "preferences", getUserId ⟨some "u", none⟩)
        (prefKey (fun s => (s.length : Int)) ⟨"response_style", "brief", 5⟩)
        (.pref ⟨"response_style", "brief", 5⟩))
    ∧ Store.countKey
        (Store.put [] ("manager", "instructions", getUserId ⟨some "u", none⟩)
          (instrKey (fun s => (s.length : Int)) ⟨"routing", "always be brief", "", true⟩)
          (.instr ⟨"routing", "always be brief", "", true⟩))
        ("manager", "instructions", getUserId ⟨some "u", none⟩)
        (instrKey (fun s => (s.length : Int)) ⟨"routing", "always be brief", "", true⟩) = 1 :=
  ⟨((orbita_c8_dedup.1 (fun s => (s.length : Int))
      (fun _ _ => .ok [⟨[⟨"response_style", "brief", 5⟩]⟩]) ⟨"response_style", "brief", 5⟩
      [] ⟨some "u", none⟩ [] (fun _ _ => rfl)).2).1,
    ((orbita_c8_dedup.2 (fun s => (s.length : Int))
      (fun _ _ => .ok [⟨[⟨"routing", "always be brief", "", true⟩]⟩])
      ⟨"routing", "always be brief", "", true⟩
      [] ⟨some "u", none⟩ [] (fun _ _ => rfl)).2).2 (by decide)⟩

/-- C9 (counterexample): the memory context loaded for a brand-new user is
not an empty or blank string — it is the section scaffolding with a literal
`None` profile. -/
theorem orbita_c9_counterexample :
    loadManagerMemories [] "newuser" = emptyMemoryContext
      ∧ emptyMemoryContext ≠ ""
      ∧ pyStrip emptyMemoryContext ≠ ""
      ∧ pyContains emptyMemoryContext "None" = true :=
  ⟨rfl, by decide, by decide, by decide⟩

/-- C9 (amended): for a user whose three namespaces are empty, `load_memory`
returns (without raising) the fixed scaffold context with a `None` profile
and blank sections, and routing proceeds normally on that context: a
keyword-free classifier response yields route `end` with the response as the
direct answer. -/
theorem orbita_c9_amended :
    (∀ (store : Store) (uid : String),
      Store.search store ("manager", "profile", uid) = [] →
      Store.search store ("manager", "preferences", uid) = [] →
      Store.search store ("manager", "instructions", uid) = [] →
      loadManagerMemories store uid = emptyMemoryContext)
  ∧ (∀ (llm : Llm) (fid : Nat) (msgs : List Message) (lm : Message) (c : String),
      msgs.getLast? = some lm →
      llm (enrichedPrompt emptyMemoryContext lm.content) = .ok c →
      pyContains (pyLower (pyStrip c)) "email" = false →
      pyContains (pyLower (pyStrip c)) "budget" = false →
      manager_router llm fid ⟨msgs, emptyMemoryContext⟩ =
        .ok ⟨[⟨fid, Role.assistant, c⟩], "end"⟩) := by
  constructor
  · intro store uid h1 h2 h3
    simp only [loadManagerMemories]
    rw [h1, h2, h3]
    rfl
  · intro llm fid msgs lm c hlast hllm he hb
    have hsf : shortcutFires lm.content emptyMemoryContext = false := by
      simp [shortcutFires, (by decide : pyContains emptyMemoryContext "name" = false)]
    rw [manager_router_not_shortcut llm fid msgs emptyMemoryContext lm c hlast hllm hsf]
    simp [normalRouting, he, hb]

/-- C9 (witness): a fresh user loads the scaffold context and a greeting
routes to `end` with a friendly direct reply. -/
theorem orbita_c9_witness :
    loadManagerMemories [] "fresh" = emptyMemoryContext
      ∧ manager_router (fun _ => .ok "Hello! How can I help?") 2
          ⟨[⟨1, Role.user, "hi there"⟩], emptyMemoryContext⟩ =
          .ok ⟨[⟨2, Role.assistant, "Hello! How can I help?"⟩], "end"⟩ :=
  ⟨orbita_c9_amended.1 [] "fresh" rfl rfl rfl,
    orbita_c9_amended.2 (fun _ => .ok "Hello! How can I help?") 2
      [⟨1, Role.user, "hi there"⟩] ⟨1, Role.user, "hi there"⟩ "Hello! How can I help?"
      rfl rfl (by decide) (by decide)⟩

end Orbita
